import Mathlib

/-!
Verification of the flight-tracker domain logic in `src/script.js`
(repository `ContadorViajAgus`).

Times are modelled as integers (milliseconds since the epoch, the value of
`Date.getTime()` / `Date.now()`); the floating-point arithmetic of
`Vuelo.progreso` and the motion mappers is modelled exactly over `ℚ`.
The wall clock `Date.now()` becomes an explicit `now : ℤ` argument.
-/

/-- The domain class `Vuelo` (`script.js` lines 18-62): three instants,
constructed from the page's three configuration strings. -/
structure Vuelo where
  salidaMvd : ℤ
  salidaPty : ℤ
  llegadaMvd : ℤ
deriving DecidableEq, Repr

/-- `Vuelo.msHasta` (lines 36-38): `objetivo.getTime() - Date.now()`. -/
def Vuelo.msHasta (_v : Vuelo) (objetivo now : ℤ) : ℤ :=
  objetivo - now

/-- `Vuelo.progreso` (lines 44-50):
`total = llegadaMvd - salidaPty`, `trans = now - salidaPty`;
if `total <= 0` return `100`; else `pct = (trans / total) * 100`
and return `Math.min(Math.max(pct, 0), 100)`. -/
def Vuelo.progreso (v : Vuelo) (now : ℤ) : ℚ :=
  let total : ℤ := v.llegadaMvd - v.salidaPty
  let trans : ℤ := now - v.salidaPty
  if total ≤ 0 then 100
  else
    let pct : ℚ := ((trans : ℚ) / (total : ℚ)) * 100
    min (max pct 0) 100

/-- `Vuelo.estado` (lines 56-61): `"Próximo"` when `now < salidaPty`,
`"En vuelo"` when `salidaPty <= now && now < llegadaMvd`, else `"Llegó"`. -/
def Vuelo.estado (v : Vuelo) (now : ℤ) : String :=
  if now < v.salidaPty then "Próximo"
  else if v.salidaPty ≤ now ∧ now < v.llegadaMvd then "En vuelo"
  else "Llegó"

/-- `msADHMS` (lines 72-79): `seg = Math.max(Math.floor(ms / 1000), 0)`, then
whole days / hours / minutes / seconds.  `Math.floor` of a real quotient is
floor division (`Int.fdiv`); JS `%` on the non-negative `seg` agrees with
`Int.fmod`. Result `(d, h, m, s)`. -/
def msADHMS (ms : ℤ) : ℤ × ℤ × ℤ × ℤ :=
  let seg := max (Int.fdiv ms 1000) 0
  (Int.fdiv seg 86400,
   Int.fdiv (Int.fmod seg 86400) 3600,
   Int.fdiv (Int.fmod seg 3600) 60,
   Int.fmod seg 60)

/-- The clamp `Math.max(0, Math.min(100, progresoPct))` used by
`renderAvion` (line 127) and `renderNombres` (line 151). -/
def clampPct (x : ℚ) : ℚ :=
  max 0 (min 100 x)

/-- `renderNombres` (lines 146-164), left actor: normalized
`p = clamp(progresoPct) / 100`, `leftPct = leftMin + (leftMax - leftMin) * p`
with `leftMin = 12`, `leftMax = 45` (offset from the left edge, in % of the
track). -/
def nombreLeftPct (progresoPct : ℚ) : ℚ :=
  12 + (45 - 12) * (clampPct progresoPct / 100)

/-- `renderNombres` (lines 146-164), right actor: same formula with
`rightMin = 12`, `rightMax = 45`, measured from the right edge. -/
def nombreRightPct (progresoPct : ℚ) : ℚ :=
  12 + (45 - 12) * (clampPct progresoPct / 100)

/-- The status-pill text right after the status block of `tick`
(lines 329-343), given whether `#estadoVuelo` exists (`estadoElExiste`) and
the text the pill held before: when the pill exists the block sets the text
to `vuelo.estado()` and then overwrites it with `'En embarque'` exactly when
`Date.now() < vuelo.salidaPty` (the other two branches only change CSS
classes); when the pill is missing the text is untouched. -/
def pillTextoTramo1 (v : Vuelo) (now : ℤ) (estadoElExiste : Bool)
    (texto : String) : String :=
  if estadoElExiste then
    if now < v.salidaPty then "En embarque" else v.estado now
  else texto

/-- `renderEstado` (lines 99-114), effect on the pill text: it returns
early unless both `#estadoVuelo` and `#progresoVuelo` exist, and otherwise
sets `estadoEl.textContent = vuelo.estado()`. -/
def renderEstadoTexto (v : Vuelo) (now : ℤ)
    (estadoElExiste progresoElExiste : Bool) (texto : String) : String :=
  if estadoElExiste && progresoElExiste then v.estado now else texto

/-- The status-pill text at the end of one full `tick`: the status block
(lines 329-343) followed by the `renderEstado(vuelo)` call at line 356,
which runs later within the same synchronous tick. -/
def pillTextoFinal (v : Vuelo) (now : ℤ)
    (estadoElExiste progresoElExiste : Bool) (texto : String) : String :=
  renderEstadoTexto v now estadoElExiste progresoElExiste
    (pillTextoTramo1 v now estadoElExiste texto)

/-- One iteration of the transition-effect block in `tick` (lines 345-352)
over the previous-status cell `estadoPrevio` (line 321, initially `null`,
modelled as `Option String`), with the arrival-heart element present: when
`estado !== estadoPrevio`, the ding (`playDing`) fires iff
`estadoPrevio !== null`, the arrival heart fires iff `estado === 'Llegó'`
(this path has no null guard), and `estadoPrevio` is updated to `estado`;
otherwise neither effect fires and the cell is unchanged.  Returns
((ding fired?, heart fired?), new cell value). -/
def transitionStep (estadoPrevio : Option String) (estado : String) :
    (Bool × Bool) × Option String :=
  if some estado ≠ estadoPrevio then
    ((estadoPrevio ≠ none, estado = "Llegó"), some estado)
  else
    ((false, false), estadoPrevio)

/-- The per-tick (ding fired?, heart fired?) trace of the transition-effect
block over a sequence of computed statuses, threading the `estadoPrevio`
cell. -/
def transitionTrace (estadoPrevio : Option String) :
    List String → List (Bool × Bool)
  | [] => []
  | e :: rest =>
      (transitionStep estadoPrevio e).1 ::
        transitionTrace (transitionStep estadoPrevio e).2 rest

/-- JS truthiness of an optional attribute string (`!x` in the guard at
line 268): `undefined` (here `none`) and the empty string are falsy, every
other string is truthy. -/
def truthy : Option String → Bool
  | none => false
  | some s => s ≠ ""

/-- The startup guard of the `DOMContentLoaded` handler (lines 263-274):
the temporal subsystem (the `Vuelo` instance, the ticker and every display
surface it drives) is activated iff all three `data-*` strings are present
and non-empty; otherwise the handler warns and returns early. -/
def subsistemaActiva (salidaMvd salidaPty llegadaMvd : Option String) : Bool :=
  truthy salidaMvd && truthy salidaPty && truthy llegadaMvd

/-- Modelled from the spec: the configuration values are instant-strings in
"a parseable absolute-time format with explicit zone offset"
(`YYYY-MM-DDTHH:MM:SS±HH:MM`).  The host page's date parser
(`new Date(string)`) is a platform facility not present under `src/`; this
predicate models which strings it accepts. -/
def parseableInstant (s : String) : Bool :=
  match s.toList with
  | [y1, y2, y3, y4, '-', mo1, mo2, '-', d1, d2, 'T',
     h1, h2, ':', mi1, mi2, ':', s1, s2, sg, o1, o2, ':', o3, o4] =>
      (sg = '+' || sg = '-') &&
      [y1, y2, y3, y4, mo1, mo2, d1, d2,
       h1, h2, mi1, mi2, s1, s2, o1, o2, o3, o4].all Char.isDigit
  | _ => false

/-! ### Theorems -/

/-- C1 (amended): for every schedule with `salidaPty ≤ llegadaMvd` and every
`now`, `estado(now)` is exactly one of the three values, and the three
defining predicates partition the timeline: `"Próximo"` iff
`now < salidaPty`; `"Llegó"` iff `now ≥ llegadaMvd`; `"En vuelo"` iff
`salidaPty ≤ now < llegadaMvd`. -/
theorem estado_partition (v : Vuelo) (now : ℤ)
    (h : v.salidaPty ≤ v.llegadaMvd) :
    (v.estado now = "Próximo" ∨ v.estado now = "En vuelo" ∨
      v.estado now = "Llegó") ∧
    (v.estado now = "Próximo" ↔ now < v.salidaPty) ∧
    (v.estado now = "Llegó" ↔ v.llegadaMvd ≤ now) ∧
    (v.estado now = "En vuelo" ↔ (v.salidaPty ≤ now ∧ now < v.llegadaMvd)) := by
  have e1 : ("Próximo" : String) ≠ "En vuelo" := by decide
  have e2 : ("Próximo" : String) ≠ "Llegó" := by decide
  have e3 : ("En vuelo" : String) ≠ "Llegó" := by decide
  unfold Vuelo.estado
  split_ifs with ha hb
  · exact ⟨Or.inl rfl,
      ⟨fun _ => ha, fun _ => rfl⟩,
      ⟨fun hc => absurd hc e2, fun hc => absurd ha (by omega)⟩,
      ⟨fun hc => absurd hc e1, fun hc => absurd ha (by omega)⟩⟩
  · exact ⟨Or.inr (Or.inl rfl),
      ⟨fun hc => absurd hc.symm e1, fun hc => absurd hc (by omega)⟩,
      ⟨fun hc => absurd hc e3, fun hc => absurd hb.2 (by omega)⟩,
      ⟨fun _ => hb, fun _ => rfl⟩⟩
  · exact ⟨Or.inr (Or.inr rfl),
      ⟨fun hc => absurd hc.symm e2, fun hc => absurd hc ha⟩,
      ⟨fun _ => by omega, fun _ => rfl⟩,
      ⟨fun hc => absurd hc.symm e3, fun hc => absurd hc hb⟩⟩

/-- Witness for `estado_partition` at the schedule `(0, 0, 10)` and
`now = 5` (in flight). -/
theorem estado_partition_witness :
    ((Vuelo.mk 0 0 10).estado 5 = "Próximo" ∨
      (Vuelo.mk 0 0 10).estado 5 = "En vuelo" ∨
      (Vuelo.mk 0 0 10).estado 5 = "Llegó") ∧
    ((Vuelo.mk 0 0 10).estado 5 = "Próximo" ↔ (5 : ℤ) < 0) ∧
    ((Vuelo.mk 0 0 10).estado 5 = "Llegó" ↔ (10 : ℤ) ≤ 5) ∧
    ((Vuelo.mk 0 0 10).estado 5 = "En vuelo" ↔
      ((0 : ℤ) ≤ 5 ∧ (5 : ℤ) < 10)) :=
  estado_partition (Vuelo.mk 0 0 10) 5 (by decide)

/-- C1 counterexample: for the degenerate schedule
`salidaPty = 10 > llegadaMvd = 5` and `now = 7`, the claimed equivalence
`estado(now) = Arrived ↔ now ≥ llegadaMvd` fails: `now ≥ llegadaMvd` holds
but `estado` is `"Próximo"` (the `now < salidaPty` branch wins). -/
theorem estado_arrived_iff_fails :
    ¬ ((Vuelo.mk 0 10 5).estado 7 = "Llegó" ↔ (Vuelo.mk 0 10 5).llegadaMvd ≤ 7) := by
  decide

/-- C2: for every well-formed schedule (`salidaPty < llegadaMvd`),
`progreso(salidaPty) = 0`, `progreso(llegadaMvd) = 100`, and for every
`now`, `progreso(now)` is the linear interpolation
`100 * (now - salidaPty) / (llegadaMvd - salidaPty)` clamped to `[0, 100]`. -/
theorem progreso_interpolation (v : Vuelo) (now : ℤ)
    (h : v.salidaPty < v.llegadaMvd) :
    v.progreso v.salidaPty = 0 ∧ v.progreso v.llegadaMvd = 100 ∧
    v.progreso now =
      min (max (100 * ((now : ℚ) - (v.salidaPty : ℚ)) /
        ((v.llegadaMvd : ℚ) - (v.salidaPty : ℚ))) 0) 100 := by
  have hne : ((v.llegadaMvd : ℚ) - (v.salidaPty : ℚ)) ≠ 0 := by
    have : (v.salidaPty : ℚ) < (v.llegadaMvd : ℚ) := by exact_mod_cast h
    exact sub_ne_zero_of_ne (ne_of_gt this)
  unfold Vuelo.progreso
  rw [if_neg (by omega), if_neg (by omega), if_neg (by omega)]
  refine ⟨?_, ?_, ?_⟩
  · push_cast
    rw [sub_self, zero_div, zero_mul]
    norm_num
  · push_cast
    rw [div_self hne, one_mul]
    norm_num
  · push_cast
    rw [div_mul_eq_mul_div, mul_comm]

/-- Witness for `progreso_interpolation` at the schedule `(0, 0, 2)` and
`now = 1` (midpoint). -/
theorem progreso_interpolation_witness :
    (Vuelo.mk 0 0 2).progreso 0 = 0 ∧ (Vuelo.mk 0 0 2).progreso 2 = 100 ∧
    (Vuelo.mk 0 0 2).progreso 1 =
      min (max (100 * ((1 : ℚ) - (0 : ℚ)) / ((2 : ℚ) - (0 : ℚ))) 0) 100 :=
  progreso_interpolation (Vuelo.mk 0 0 2) 1 (by decide)

/-- C3: for every schedule (well-formed or not) and every `now`,
`progreso(now)` lies in `[0, 100]`. -/
theorem progreso_in_range (v : Vuelo) (now : ℤ) :
    0 ≤ v.progreso now ∧ v.progreso now ≤ 100 := by
  simp only [Vuelo.progreso]
  split_ifs
  · norm_num
  · exact ⟨le_min (le_max_right _ _) (by norm_num), min_le_right _ _⟩

/-- C4: for every degenerate schedule (`llegadaMvd ≤ salidaPty`) and every
`now`, `progreso(now) = 100`. -/
theorem progreso_degenerate (v : Vuelo) (now : ℤ)
    (h : v.llegadaMvd ≤ v.salidaPty) :
    v.progreso now = 100 := by
  unfold Vuelo.progreso
  rw [if_pos (by omega)]

/-- Witness for `progreso_degenerate` at the schedule `(0, 5, 3)` and
`now = 7`. -/
theorem progreso_degenerate_witness :
    (Vuelo.mk 0 5 3).progreso 7 = 100 :=
  progreso_degenerate (Vuelo.mk 0 5 3) 7 (by decide)

/-- C5: for every well-formed schedule (`salidaPty < llegadaMvd`) and all
times `n1 ≤ n2`, `progreso(n1) ≤ progreso(n2)`: progress is monotonically
non-decreasing in the current time. -/
theorem progreso_monotone (v : Vuelo) (n1 n2 : ℤ)
    (h : v.salidaPty < v.llegadaMvd) (hn : n1 ≤ n2) :
    v.progreso n1 ≤ v.progreso n2 := by
  have htot : (0 : ℚ) < ((v.llegadaMvd - v.salidaPty : ℤ) : ℚ) := by
    exact_mod_cast (by omega : (0 : ℤ) < v.llegadaMvd - v.salidaPty)
  have htr : ((n1 - v.salidaPty : ℤ) : ℚ) ≤ ((n2 - v.salidaPty : ℤ) : ℚ) := by
    exact_mod_cast (by omega : (n1 - v.salidaPty : ℤ) ≤ n2 - v.salidaPty)
  unfold Vuelo.progreso
  rw [if_neg (by omega), if_neg (by omega)]
  refine min_le_min (max_le_max ?_ le_rfl) le_rfl
  exact mul_le_mul_of_nonneg_right ((div_le_div_iff_of_pos_right htot).mpr htr)
    (by norm_num)

/-- Witness for `progreso_monotone` at the schedule `(0, 0, 10)` with
`n1 = 3 ≤ n2 = 7`. -/
theorem progreso_monotone_witness :
    (Vuelo.mk 0 0 10).progreso 3 ≤ (Vuelo.mk 0 0 10).progreso 7 :=
  progreso_monotone (Vuelo.mk 0 0 10) 3 7 (by decide) (by decide)

/-- C6 (amended): the ding fires on a tick iff the newly computed status
differs (strict inequality) from the previously observed one and a previous
status exists, so the very first tick never fires the ding; the arrival
heart is not gated by the null check — it fires iff the status differs and
the new status is `"Llegó"`, so it can fire on the very first tick and it
never fires on `Próximo → En vuelo`.  Over the tick-status sequence
`[Próximo, Próximo, En vuelo, En vuelo, Llegó]` the ding fires exactly
twice, at indices 2 and 4 and never at index 0, and the heart fires exactly
once, at index 4. -/
theorem transition_effects :
    (∀ (e : String) (rest : List String),
      transitionTrace none (e :: rest) =
        (false, decide (e = "Llegó")) :: transitionTrace (some e) rest) ∧
    (∀ (p e : String) (rest : List String),
      transitionTrace (some p) (e :: rest) =
        (decide (e ≠ p), decide (e ≠ p) && decide (e = "Llegó")) ::
          transitionTrace (some e) rest) ∧
    transitionTrace none
      ["Próximo", "Próximo", "En vuelo", "En vuelo", "Llegó"] =
      [(false, false), (false, false), (true, false), (false, false),
        (true, true)] ∧
    ((transitionTrace none
      ["Próximo", "Próximo", "En vuelo", "En vuelo", "Llegó"]).map
        Prod.fst).count true = 2 := by
  refine ⟨fun e rest => rfl, fun p e rest => ?_, by decide, by decide⟩
  by_cases he : e = p
  · subst he
    simp [transitionTrace, transitionStep]
  · simp [transitionTrace, transitionStep, he]

/-- C6 counterexample: on the very first tick (cell still `null`) with
computed status `"Llegó"`, the arrival heart fires — a one-shot transition
effect on the first tick — while on the genuine transition
`"Próximo" → "En vuelo"` the heart does not fire although the newly
computed status differs from the previous one.  Both contradict the
claimed iff and first-tick clauses for the arrival highlight. -/
theorem heart_first_tick_fires :
    ((transitionStep none "Llegó").1.2 = true ∧
      (transitionStep none "Llegó").1.1 = false) ∧
    ((transitionStep (some "Próximo") "En vuelo").1.2 = false ∧
      (transitionStep (some "Próximo") "En vuelo").1.1 = true) := by
  decide

/-- C7 counterexample: a non-empty but unparseable configuration string
passes the startup guard — the temporal subsystem activates anyway, contrary
to the claim that unparseable values deactivate it. -/
theorem config_unparseable_still_activates :
    parseableInstant "garbage" = false ∧
    subsistemaActiva (some "garbage") (some "2026-01-05T19:13:00-05:00")
      (some "2026-01-06T03:59:00-03:00") = true := by
  exact ⟨by decide, by decide⟩

/-- C7 (amended): the temporal subsystem fails to activate iff one of the
three configuration strings is missing or empty; parseability is never
checked by the guard. -/
theorem subsistema_activation_guard (a b c : Option String) :
    subsistemaActiva a b c = false ↔
      (a = none ∨ a = some "" ∨ b = none ∨ b = some "" ∨
       c = none ∨ c = some "") := by
  cases a <;> cases b <;> cases c <;>
    simp [subsistemaActiva, truthy]
  tauto

/-- C8: for every non-negative `ms`, the four fields of `msADHMS ms` satisfy
`d*86400 + h*3600 + m*60 + s = ⌊ms / 1000⌋` (total seconds, no carry loss);
for every negative `ms`, all four fields are zero. -/
theorem msADHMS_correct (ms : ℤ) :
    (0 ≤ ms →
      (msADHMS ms).1 * 86400 + (msADHMS ms).2.1 * 3600 +
        (msADHMS ms).2.2.1 * 60 + (msADHMS ms).2.2.2 = Int.fdiv ms 1000) ∧
    (ms < 0 → msADHMS ms = (0, 0, 0, 0)) := by
  have e1 : ∀ a : ℤ, Int.fdiv a 1000 = a / 1000 :=
    fun a => Int.fdiv_eq_ediv a (by norm_num)
  have e2 : ∀ a : ℤ, Int.fdiv a 86400 = a / 86400 :=
    fun a => Int.fdiv_eq_ediv a (by norm_num)
  have e3 : ∀ a : ℤ, Int.fdiv a 3600 = a / 3600 :=
    fun a => Int.fdiv_eq_ediv a (by norm_num)
  have e4 : ∀ a : ℤ, Int.fdiv a 60 = a / 60 :=
    fun a => Int.fdiv_eq_ediv a (by norm_num)
  have f1 : ∀ a : ℤ, Int.fmod a 86400 = a % 86400 :=
    fun a => Int.fmod_eq_emod a (by norm_num)
  have f2 : ∀ a : ℤ, Int.fmod a 3600 = a % 3600 :=
    fun a => Int.fmod_eq_emod a (by norm_num)
  have f3 : ∀ a : ℤ, Int.fmod a 60 = a % 60 :=
    fun a => Int.fmod_eq_emod a (by norm_num)
  simp only [msADHMS, e1, e2, e3, e4, f1, f2, f3]
  constructor
  · intro h
    omega
  · intro h
    simp only [Prod.mk.injEq]
    refine ⟨?_, ?_, ?_, ?_⟩ <;> omega

/-- Witness for `msADHMS_correct`: `ms = 90061000` (1 day, 1 hour, 1 minute,
1 second) satisfies the carry-free identity, and `ms = -5` decomposes to all
zeros. -/
theorem msADHMS_correct_witness :
    ((msADHMS 90061000).1 * 86400 + (msADHMS 90061000).2.1 * 3600 +
      (msADHMS 90061000).2.2.1 * 60 + (msADHMS 90061000).2.2.2 =
        Int.fdiv 90061000 1000) ∧
    msADHMS (-5) = (0, 0, 0, 0) :=
  ⟨(msADHMS_correct 90061000).1 (by norm_num),
   (msADHMS_correct (-5)).2 (by norm_num)⟩

/-- C9: for every progress fraction in `[0, 100]` with `t = progress / 100`,
both proximity actors' displacements from their respective edges equal
`12 + (45 - 12) * t` (lockstep), the left actor never passes the track
midpoint (`leftPct ≤ 50`), and the right actor (at `100 - rightPct` from the
left edge) never falls below it — they never cross. -/
theorem nombres_lockstep (prog : ℚ) (h0 : 0 ≤ prog) (h1 : prog ≤ 100) :
    nombreLeftPct prog = 12 + (45 - 12) * (prog / 100) ∧
    nombreRightPct prog = 12 + (45 - 12) * (prog / 100) ∧
    nombreLeftPct prog ≤ 50 ∧
    50 ≤ 100 - nombreRightPct prog := by
  have hc : clampPct prog = prog := by
    unfold clampPct
    rw [min_eq_right h1, max_eq_right h0]
  unfold nombreLeftPct nombreRightPct
  rw [hc]
  refine ⟨rfl, rfl, ?_, ?_⟩ <;> linarith

/-- Witness for `nombres_lockstep` at `prog = 50` (both actors at 28.5% from
their edges, on their own sides of the midpoint). -/
theorem nombres_lockstep_witness :
    nombreLeftPct 50 = 12 + (45 - 12) * ((50 : ℚ) / 100) ∧
    nombreRightPct 50 = 12 + (45 - 12) * ((50 : ℚ) / 100) ∧
    nombreLeftPct 50 ≤ 50 ∧
    50 ≤ 100 - nombreRightPct 50 :=
  nombres_lockstep 50 (by norm_num) (by norm_num)

/-- C10 (amended): during the status block of `tick` (lines 329-343, with
the pill present) the text pushed when `now < salidaPty` is
`"En embarque"`, which differs from the model status `"Próximo"`, and this
mid-tick text disagrees with the model status exactly in the `"Próximo"`
state; but `renderEstado` runs later in the same tick (line 356) and, with
both the pill and the progress bar present, overwrites the text with
`vuelo.estado()`, so the end-of-tick displayed label equals the model
status in every state — the disagreement is only transient. -/
theorem pill_mid_tick_vs_end_tick (v : Vuelo) (now : ℤ) (texto : String) :
    (now < v.salidaPty →
      pillTextoTramo1 v now true texto = "En embarque" ∧
        v.estado now = "Próximo" ∧
        pillTextoTramo1 v now true texto ≠ v.estado now) ∧
    (v.salidaPty ≤ now → pillTextoTramo1 v now true texto = v.estado now) ∧
    (pillTextoTramo1 v now true texto ≠ v.estado now ↔
      v.estado now = "Próximo") ∧
    pillTextoFinal v now true true texto = v.estado now := by
  have d1 : ("En embarque" : String) ≠ "Próximo" := by decide
  have d2 : ("En vuelo" : String) ≠ "Próximo" := by decide
  have d3 : ("Llegó" : String) ≠ "Próximo" := by decide
  have key : pillTextoTramo1 v now true texto =
      if now < v.salidaPty then "En embarque" else v.estado now := rfl
  have keyF : pillTextoFinal v now true true texto = v.estado now := rfl
  rw [key, keyF]
  unfold Vuelo.estado
  split_ifs with ha hb
  · exact ⟨fun _ => ⟨rfl, rfl, d1⟩,
      fun hc => absurd ha (by omega),
      ⟨fun _ => rfl, fun _ => d1⟩, rfl⟩
  · exact ⟨fun hc => absurd hc ha,
      fun _ => rfl,
      ⟨fun hc => absurd rfl hc, fun hc => absurd hc d2⟩, rfl⟩
  · exact ⟨fun hc => absurd hc ha,
      fun _ => rfl,
      ⟨fun hc => absurd rfl hc, fun hc => absurd hc d3⟩, rfl⟩

/-- Witness for `pill_mid_tick_vs_end_tick` at the schedule `(0, 10, 20)`
and `now = 5` (before the waypoint departure). -/
theorem pill_mid_tick_vs_end_tick_witness :
    pillTextoTramo1 (Vuelo.mk 0 10 20) 5 true "" = "En embarque" ∧
    (Vuelo.mk 0 10 20).estado 5 = "Próximo" ∧
    pillTextoTramo1 (Vuelo.mk 0 10 20) 5 true "" ≠
      (Vuelo.mk 0 10 20).estado 5 :=
  (pill_mid_tick_vs_end_tick (Vuelo.mk 0 10 20) 5 "").1 (by decide)

/-- C10 counterexample: in the Upcoming state (`now = 5 < salidaPty = 10`),
with both the pill and the progress bar present, the pill text at the end
of the tick is `"Próximo"` — equal to the model status and not
`"En embarque"` — because `renderEstado` overwrites the status block's
write within the same tick.  The claimed end-of-tick display/model
disagreement in the Upcoming state never exists. -/
theorem pill_label_overwritten_end_of_tick :
    (5 : ℤ) < (Vuelo.mk 0 10 20).salidaPty ∧
    (Vuelo.mk 0 10 20).estado 5 = "Próximo" ∧
    pillTextoFinal (Vuelo.mk 0 10 20) 5 true true "" = "Próximo" ∧
    pillTextoFinal (Vuelo.mk 0 10 20) 5 true true "" ≠ "En embarque" := by
  decide
